import Mathlib

/-!
Shallow embedding of the container-lifecycle core of the clearcontainers
runtime (vendored cc-oci-runtime sources): the shim big-endian codec
(`shim/utils.c`), the proxy control-socket framing (`src/proxy.c`), the shim
proxy-I/O event handling (`shim/shim.c`), the state-file reader
(`src/state.c`), the kill/list/create lifecycle operations (`src/oci.c`,
`src/runtime.c`) and the kill subcommand's signal parsing
(`src/commands/kill.c`, `src/util.c`).

Bytes are modelled as `Nat` values below 256, buffers as `List Nat`, machine
integers as `Nat` with explicit `% 2 ^ 32` / `% 2 ^ 64` where the C code
truncates.  Interaction with the operating system (writes, signals, the
filesystem) is modelled by explicit effect values or oracle parameters.
-/

namespace CCRuntime

/-! ### shim/utils.c: big-endian codec -/

/-- `set_big_endian_32` (shim/utils.c): store a 32-bit value into a 4-byte
buffer, most significant byte first.  Each `(uint8_t)(val >> s)` cast is
`(v >>> s) % 256`. -/
def set_big_endian_32 (val : Nat) : List Nat :=
  [(val >>> 24) % 256, (val >>> 16) % 256, (val >>> 8) % 256, val % 256]

/-- `get_big_endian_32` (shim/utils.c): reassemble
`buf[0] << 24 | buf[1] << 16 | buf[2] << 8 | buf[3]`, cast to `uint32_t`. -/
def get_big_endian_32 (buf : List Nat) : Nat :=
  (((buf.getD 0 0 <<< 24 ||| buf.getD 1 0 <<< 16) ||| buf.getD 2 0 <<< 8)
      ||| buf.getD 3 0) % 2 ^ 32

/-- `set_big_endian_64` (shim/utils.c): the high 32 bits, then the low
32 bits, each via `set_big_endian_32`; the `(uint32_t)` casts truncate. -/
def set_big_endian_64 (val : Nat) : List Nat :=
  set_big_endian_32 ((val >>> 32) % 2 ^ 32) ++ set_big_endian_32 (val % 2 ^ 32)

/-- `get_big_endian_64` (shim/utils.c):
`((uint64_t)get_big_endian_32(buf) << 32) | get_big_endian_32(buf+4)`. -/
def get_big_endian_64 (buf : List Nat) : Nat :=
  (get_big_endian_32 buf <<< 32 ||| get_big_endian_32 (buf.drop 4)) % 2 ^ 64

/-! ### src/proxy.c: control-socket framing -/

/-- `g_utf8_strlen` on a UTF-8 byte sequence: the number of characters,
i.e. the number of bytes that are not UTF-8 continuation bytes
(`0x80 ≤ b < 0xC0`).  For valid UTF-8 this is exactly the character count
that GLib's `g_utf8_strlen` computes by walking `g_utf8_next_char`. -/
def g_utf8_strlen (payload : List Nat) : Nat :=
  (payload.filter (fun b => !(128 ≤ b % 256 && b % 256 < 192))).length

/-- The frame `cc_proxy_msg_write` (src/proxy.c) puts on the proxy control
socket for a JSON payload: `msg.length = htonl((guint32)len)` with
`len = g_utf8_strlen(msg_to_send, -1)`, then the 4 reserved zero bytes,
then `len` bytes of the payload
(`g_io_channel_write_chars(source, msg_to_send, (gssize)len, ...)`). -/
def cc_proxy_msg_write_frame (payload : List Nat) : List Nat :=
  let len := g_utf8_strlen payload
  set_big_endian_32 (len % 2 ^ 32) ++ [0, 0, 0, 0] ++ payload.take len

/-! ### shim/shim.c: proxy I/O stream handling -/

/-- Terminal state of the shim process: whether stdin is a tty, the termios
settings saved at startup (`saved_term_settings`), and the current
settings.  Termios settings are represented abstractly as `Nat`. -/
structure TermState where
  isatty : Bool
  saved : Option Nat
  current : Nat
deriving DecidableEq, Repr

/-- `restore_terminal` (shim/shim.c): if stdin is a tty and settings were
saved, `tcsetattr` the saved settings back and free the saved copy. -/
def restore_terminal (t : TermState) : TermState :=
  if t.isatty then
    match t.saved with
    | some ts => { isatty := t.isatty, saved := none, current := ts }
    | none => t
  else t

/-- The part of `struct cc_shim` (shim/shim.h) that `handle_proxy_output`
reads and writes: the stdio stream sequence number `io_seq_no` (a
`uint64_t`), the `exiting` flag, plus the process terminal state. -/
structure ShimState where
  io_seq_no : Nat
  exiting : Bool
  term : TermState
deriving DecidableEq, Repr

/-- One stream frame on the proxy I/O fd as decoded by `read_IO_message`
(shim/shim.c): an 8-byte big-endian sequence number and a payload; the
frame's 4-byte length field is `12 + payload length`. -/
structure Frame where
  seq : Nat
  payload : List Nat
deriving DecidableEq, Repr

/-- The frame's `length` field (`stream_len` in read_IO_message):
`STREAM_HEADER_SIZE` (12) plus the payload length. -/
def Frame.streamLen (f : Frame) : Nat := 12 + f.payload.length

/-- A well-formed frame: the sequence fits a `uint64_t` and the length is
within `HYPERSTART_MAX_RECV_BYTES` (10240), the bound `read_IO_message`
enforces on inbound messages. -/
def Frame.wf (f : Frame) : Prop := f.seq < 2 ^ 64 ∧ f.streamLen ≤ 10240

/-- The observable outcome of `handle_proxy_output` on one frame. -/
inductive ShimEffect where
  /-- the payload bytes are written to `STDOUT_FILENO` -/
  | writeStdout (bytes : List Nat)
  /-- the payload bytes are written to `STDERR_FILENO` -/
  | writeStderr (bytes : List Nat)
  /-- the frame is dropped: oversized message or sequence mismatch -/
  | discard
  /-- 12-byte EOF frame: `shim->exiting` is set, nothing is written -/
  | markExiting
  /-- `exit(code)` after `restore_terminal()`; the code is the low 8 bits
  of the `char` read at `buf + STREAM_HEADER_SIZE` -/
  | exitWith (code : Nat)
deriving DecidableEq, Repr

/-- `handle_proxy_output` (shim/shim.c): drop oversized messages (the
`read_IO_message` / re-check bound), select stdout when
`seq == shim->io_seq_no` and stderr when `seq == shim->io_seq_no + 1`
(`uint64_t` arithmetic), warn and drop on any other sequence; then a
12-byte frame when not exiting sets `shim->exiting`, a 13-byte frame when
exiting exits with the payload byte as status after restoring the
terminal, and any other frame has its payload written to the selected
descriptor. -/
def handle_proxy_output (s : ShimState) (f : Frame) : ShimState × ShimEffect :=
  if 10240 < f.streamLen then (s, ShimEffect.discard)
  else if f.seq = s.io_seq_no ∨ f.seq = (s.io_seq_no + 1) % 2 ^ 64 then
    if s.exiting = false ∧ f.streamLen = 12 then
      ({ s with exiting := true }, ShimEffect.markExiting)
    else if s.exiting = true ∧ f.streamLen = 13 then
      ({ s with term := restore_terminal s.term },
        ShimEffect.exitWith (f.payload.headD 0 % 256))
    else
      (s, if f.seq = s.io_seq_no then ShimEffect.writeStdout f.payload
          else ShimEffect.writeStderr f.payload)
  else (s, ShimEffect.discard)

/-- The exit code carried by an effect, when the effect is `exit(code)`. -/
def ShimEffect.exitCode? : ShimEffect → Option Nat
  | ShimEffect.exitWith c => some c
  | _ => none

/-- Process a list of frames in arrival order, as the shim's poll loop
does, stopping at the first frame that makes the shim exit.  Returns the
final shim state and, when the shim exited, the index of the exiting frame
together with the exit code. -/
def shimRun (s : ShimState) : List Frame → ShimState × Option (Nat × Nat)
  | [] => (s, none)
  | f :: fs =>
    match ((handle_proxy_output s f).2).exitCode? with
    | some c => ((handle_proxy_output s f).1, some (0, c))
    | none =>
      let r := shimRun (handle_proxy_output s f).1 fs
      (r.1, r.2.map (fun p => (p.1 + 1, p.2)))

/-! ### src/state.c: state-file reader -/

/-- A node of the GLib `GNode` tree that `cc_oci_json_parse` produces from
a JSON state document: the node datum (a string, or null) and the child
nodes.  An object member is a node whose datum is the key and whose first
child carries the value; a scalar value appears as a node datum. -/
inductive GN where
  | mk (data : Option String) (children : List GN)

/-- The node datum (`node->data`). -/
def GN.data : GN → Option String
  | GN.mk d _ => d

/-- The child list (`node->children` and its siblings). -/
def GN.children : GN → List GN
  | GN.mk _ c => c

/-- The value carried by an object-member node:
`node->children && node->children->data`. -/
def GN.valueOf (n : GN) : Option String :=
  match n.children with
  | v :: _ => v.data
  | [] => none

/-- Whether `g_ascii_strtoll(s, &endptr, 10)` consumes at least one
character (`endptr != s`): after optional leading whitespace and an
optional single sign there is at least one decimal digit. -/
def g_ascii_strtoll_consumes (s : String) : Bool :=
  let cs := s.data.dropWhile (fun c =>
    c == ' ' || c == '\t' || c == '\n' || c == '\r'
      || c == '\x0b' || c == '\x0c')
  match cs with
  | c :: rest =>
    if c == '+' || c == '-' then
      match rest with
      | d :: _ => d.isDigit
      | [] => false
    else c.isDigit
  | [] => false

/-- Subelement count contributed by one child node of a scalar state
section (`update_subelements_and_strdup` and
`handle_state_status_section`): 1 when the node carries a datum. -/
def scalar_subelement (n : GN) : Nat :=
  match n.data with
  | some _ => 1
  | none => 0

/-- Subelement count for one child of the `pid` section
(`handle_state_pid_section`): counts when `g_ascii_strtoll` consumes
characters (`endptr != node->data`). -/
def pid_subelement (n : GN) : Nat :=
  match n.data with
  | some s => if g_ascii_strtoll_consumes s then 1 else 0
  | none => 0

/-- Subelement count for one member of the `vm` section
(`handle_state_vm_section`): the five path/params members count when
present with a value; `pid` additionally requires a parseable integer. -/
def vm_subelement (n : GN) : Nat :=
  match n.data, n.valueOf with
  | some key, some v =>
    if key = "workload_path" ∨ key = "hypervisor_path"
        ∨ key = "kernel_path" ∨ key = "image_path"
        ∨ key = "kernel_params" then 1
    else if key = "pid" then
      if g_ascii_strtoll_consumes v then 1 else 0
    else 0
  | _, _ => 0

/-- Subelement count for one member of the `proxy` section
(`handle_state_proxy_section`): `ctlSocket`, `ioSocket` and
`consoleSocket` each count when present with a value. -/
def proxy_subelement (n : GN) : Nat :=
  match n.data, n.valueOf with
  | some key, some _ =>
    if key = "ctlSocket" ∨ key = "ioSocket" ∨ key = "consoleSocket"
    then 1 else 0
  | _, _ => 0

/-- Subelement count for one member of the `console` section
(`handle_state_console_section`). -/
def console_subelement (n : GN) : Nat :=
  match n.data, n.valueOf with
  | some key, some _ => if key = "path" then 1 else 0
  | _, _ => 0

/-- Subelement count for one member of the `pod` section
(`handle_state_pod_section`). -/
def pod_subelement (n : GN) : Nat :=
  match n.data, n.valueOf with
  | some key, some _ =>
    if key = "sandbox" ∨ key = "sandbox_name" then 1 else 0
  | _, _ => 0

/-- The `state_handlers` table (src/state.c): section name, per-child
subelement counting function, and `subelements_needed`.  The `mounts`,
`annotations` and `namespaces` handlers never increment the count. -/
def state_handlers : List (String × (GN → Nat) × Nat) :=
  [("ociVersion", scalar_subelement, 1),
   ("id", scalar_subelement, 1),
   ("pid", pid_subelement, 1),
   ("bundlePath", scalar_subelement, 1),
   ("commsPath", scalar_subelement, 1),
   ("processPath", scalar_subelement, 1),
   ("status", scalar_subelement, 1),
   ("created", scalar_subelement, 1),
   ("mounts", fun _ => 0, 0),
   ("console", console_subelement, 0),
   ("vm", vm_subelement, 6),
   ("proxy", proxy_subelement, 2),
   ("pod", pod_subelement, 0),
   ("annotations", fun _ => 0, 0),
   ("namespaces", fun _ => 0, 0)]

/-- The accumulated `subelements_count` of one handler after
`handle_state_sections` ran over all top-level sections of the document:
every section node whose datum matches the handler name has its children
passed to the handler via `g_node_children_foreach`. -/
def handler_count (name : String) (count1 : GN → Nat) (doc : List GN) :
    Nat :=
  (doc.map (fun sec =>
    if sec.data = some name then (sec.children.map count1).sum else 0)).sum

/-- Success of `cc_oci_state_file_read` (src/state.c) on a parsed document
(the list of top-level members): the read returns a state object iff no
handler finished with `subelements_count < subelements_needed`. -/
def cc_oci_state_file_read_ok (doc : List GN) : Bool :=
  state_handlers.all (fun h => decide (h.2.2 ≤ handler_count h.1 h.2.1 doc))

/-- The required keys named by claim C4. -/
inductive ReqKey where
  | ociVersion | id | pid | bundlePath | commsPath | processPath
  | status | created
  | vmWorkloadPath | vmHypervisorPath | vmKernelPath | vmImagePath
  | vmKernelParams | vmPid
  | proxyCtlSocket | proxyIoSocket | proxyConsoleSocket
deriving DecidableEq, Repr

/-- A scalar top-level section, e.g. `"id": "vm1"`. -/
def scalarSection (name val : String) : GN :=
  GN.mk (some name) [GN.mk (some val) []]

/-- An object member with a string value, e.g. `"ctlSocket": "/run/..."`. -/
def memberNode (key val : String) : GN :=
  GN.mk (some key) [GN.mk (some val) []]

/-- A full state document in the shape `cc_oci_state_file_create` writes,
with at most one required key omitted. -/
def mkStateDoc (missing : Option ReqKey) : List GN :=
  (if missing = some ReqKey.ociVersion then []
    else [scalarSection "ociVersion" "1.0.0"]) ++
  (if missing = some ReqKey.id then [] else [scalarSection "id" "vm1"]) ++
  (if missing = some ReqKey.pid then [] else [scalarSection "pid" "1234"]) ++
  (if missing = some ReqKey.bundlePath then []
    else [scalarSection "bundlePath" "/tmp/bundle"]) ++
  (if missing = some ReqKey.commsPath then []
    else [scalarSection "commsPath" "/run/cc/vm1/hypervisor.sock"]) ++
  (if missing = some ReqKey.processPath then []
    else [scalarSection "processPath" "/run/cc/vm1/process.sock"]) ++
  (if missing = some ReqKey.status then []
    else [scalarSection "status" "created"]) ++
  (if missing = some ReqKey.created then []
    else [scalarSection "created" "2017-01-01T00:00:00.000000Z"]) ++
  [GN.mk (some "vm")
    ((if missing = some ReqKey.vmHypervisorPath then []
        else [memberNode "hypervisor_path" "/usr/bin/qemu-lite"]) ++
     (if missing = some ReqKey.vmImagePath then []
        else [memberNode "image_path" "/usr/share/clear/clear.img"]) ++
     (if missing = some ReqKey.vmKernelPath then []
        else [memberNode "kernel_path" "/usr/share/clear/vmlinux"]) ++
     (if missing = some ReqKey.vmWorkloadPath then []
        else [memberNode "workload_path" "/tmp/bundle/rootfs"]) ++
     (if missing = some ReqKey.vmKernelParams then []
        else [memberNode "kernel_params" "root=/dev/pmem0p1"]) ++
     (if missing = some ReqKey.vmPid then []
        else [memberNode "pid" "4321"])),
   GN.mk (some "proxy")
    ((if missing = some ReqKey.proxyCtlSocket then []
        else [memberNode "ctlSocket" "/run/cc/vm1/ga-ctl.sock"]) ++
     (if missing = some ReqKey.proxyIoSocket then []
        else [memberNode "ioSocket" "/run/cc/vm1/ga-tty.sock"]) ++
     (if missing = some ReqKey.proxyConsoleSocket then []
        else [memberNode "consoleSocket" "/run/cc/vm1/console.sock"]))]

/-- Whether a required key is one of the three proxy socket members. -/
def ReqKey.isProxyMember : ReqKey → Bool
  | ReqKey.proxyCtlSocket => true
  | ReqKey.proxyIoSocket => true
  | ReqKey.proxyConsoleSocket => true
  | _ => false

/-! ### src/oci.c: cc_oci_kill -/

/-- Container status values (`oci_status`, src/oci.h). -/
inductive OciStatus where
  | created | running | paused | stopped | stopping | invalid
deriving DecidableEq, Repr

/-- Outcomes of the fallible operations `cc_oci_kill` performs, fixed up
front as an oracle: whether the container is a sandbox, and whether each
state-file write, the `kill(2)` call and the `hyper killcontainer` RPC
would succeed. -/
structure KillEnv where
  /-- `cc_pod_is_sandbox(config)` -/
  sandbox : Bool
  /-- first `cc_oci_state_file_create` (status stopped / stopping) -/
  write1Ok : Bool
  /-- the state rewrite after a `kill(2)` failure -/
  writeRevertOk : Bool
  /-- `cc_proxy_hyper_kill_container` -/
  hyperOk : Bool
  /-- `kill(state->pid, signum)` -/
  killOk : Bool
  /-- final `cc_oci_state_file_create` (status stopped) -/
  write2Ok : Bool
deriving DecidableEq, Repr

/-- Linux signal number of SIGKILL. -/
def SIGKILL : Nat := 9

/-- Linux signal number of SIGSTOP. -/
def SIGSTOP : Nat := 19

/-- Linux signal number of SIGTERM. -/
def SIGTERM : Nat := 15

/-- Externally visible actions of one `cc_oci_kill` call, in order. -/
inductive KillEvent where
  | writeState (s : OciStatus) (ok : Bool)
  | sendSignal (pid signum : Nat) (ok : Bool)
  | hyperKillContainer (ok : Bool)
deriving DecidableEq, Repr

/-- Result of `cc_oci_kill`: the boolean return value, the final in-memory
`config->state.status`, the final status stored in the state file, and the
trace of externally visible actions. -/
structure KillResult where
  ok : Bool
  memStatus : OciStatus
  diskStatus : OciStatus
  events : List KillEvent
deriving DecidableEq, Repr

/-- `cc_oci_kill` (src/oci.c).  `mem` is `config->state.status` on entry,
`disk` the status stored in the state file, `pid` the shim pid from the
state file.  A successful `cc_oci_state_file_create` replaces the on-disk
status, a failed one leaves it.  `last_status` is saved on entry,
re-assigned to the current status just before the final write, restored at
the `error` label and on `kill(2)` failure; a
`cc_proxy_hyper_kill_container` failure returns `false` without restoring
anything. -/
def cc_oci_kill (env : KillEnv) (mem disk : OciStatus) (pid signum : Nat) :
    KillResult :=
  if env.sandbox then
    if env.write1Ok then
      ⟨true, OciStatus.stopped, OciStatus.stopped,
        [KillEvent.writeState OciStatus.stopped true]⟩
    else
      ⟨false, mem, disk, [KillEvent.writeState OciStatus.stopped false]⟩
  else
    if env.write1Ok = false then
      ⟨false, mem, disk, [KillEvent.writeState OciStatus.stopping false]⟩
    else if env.killOk = false then
      ⟨false, mem,
        if env.writeRevertOk then mem else OciStatus.stopping,
        [KillEvent.writeState OciStatus.stopping true,
         KillEvent.sendSignal pid signum false,
         KillEvent.writeState mem env.writeRevertOk]⟩
    else if (signum = SIGKILL ∨ signum = SIGSTOP) ∧ env.hyperOk = false then
      ⟨false, OciStatus.stopping, OciStatus.stopping,
        [KillEvent.writeState OciStatus.stopping true,
         KillEvent.sendSignal pid signum true,
         KillEvent.hyperKillContainer false]⟩
    else
      let ev3 := [KillEvent.writeState OciStatus.stopping true,
        KillEvent.sendSignal pid signum true] ++
        (if signum = SIGKILL ∨ signum = SIGSTOP then
          [KillEvent.hyperKillContainer true] else [])
      if env.write2Ok then
        ⟨true, OciStatus.stopped, OciStatus.stopped,
          ev3 ++ [KillEvent.writeState OciStatus.stopped true]⟩
      else
        ⟨false, OciStatus.stopping, OciStatus.stopping,
          ev3 ++ [KillEvent.writeState OciStatus.stopped false]⟩

/-! ### src/oci.c: status reporting by list -/

/-- The fields of `struct oci_state` (src/state.h) that list's status
reporting reads: the shim pid (the top-level `pid` member of the state
document), the hypervisor pid from the `vm` section (`state->vm->pid`;
`none` when the state has no vm substructure), and the stored status. -/
structure OciStateView where
  pid : Nat
  vm : Option Nat
  status : OciStatus
deriving DecidableEq, Repr

/-- `cc_oci_vm_running` (src/oci.c): false when `state->vm` is null or
`state->vm->pid` is 0, else `kill(state->vm->pid, 0) == 0`.  The liveness
oracle `alive` models `kill(pid, 0) == 0`. -/
def cc_oci_vm_running (alive : Nat → Bool) (state : OciStateView) : Bool :=
  match state.vm with
  | none => false
  | some vmPid => if vmPid = 0 then false else alive vmPid

/-- The status `cc_oci_list_vm` (src/oci.c) reports for one state: stopped
when `cc_oci_vm_running` is false, else the stored status. -/
def cc_oci_list_vm_status (alive : Nat → Bool) (state : OciStateView) :
    OciStatus :=
  if cc_oci_vm_running alive state = false then OciStatus.stopped
  else state.status

/-! ### src/runtime.c and src/oci.c: create and the runtime directory -/

/-- State of the `<root>/<container-id>` path on disk. -/
inductive PathState where
  | absent | dir | nonDir
deriving DecidableEq, Repr

/-- GLib `g_mkdir_with_parents`, as success flag (`0` → `true`): creates a
missing directory; returns 0 when the path already exists as a directory;
fails with `ENOTDIR` when it exists as a non-directory.  (Documented GLib
semantics; GLib is an external library of this repository.) -/
def g_mkdir_with_parents (p : PathState) : Bool :=
  match p with
  | PathState.absent => true
  | PathState.dir => true
  | PathState.nonDir => false

/-- `cc_oci_runtime_dir_setup` (src/runtime.c): after filling in the
socket paths it returns `! g_mkdir_with_parents(runtime_path, mode)`; a
failure to create the parent directory is only logged. -/
def cc_oci_runtime_dir_setup (runtimePath : PathState) : Bool :=
  g_mkdir_with_parents runtimePath

/-- How far `cc_oci_create` (src/oci.c) gets with respect to the runtime
directory check. -/
inductive CreateOutcome where
  /-- returned false after logging "container already exists" -/
  | errorAlreadyExists
  /-- returned false after logging "failed to create runtime directory" -/
  | errorRuntimeDir
  /-- continued to namespace setup, mounts and VM launch -/
  | proceed
deriving DecidableEq, Repr

/-- The runtime-directory step of `cc_oci_create` (src/oci.c): when
`cc_oci_runtime_dir_setup` fails and the path exists as a directory it
reports "container already exists"; when it fails otherwise, a generic
error; otherwise create proceeds to namespace setup, mounts and VM
launch. -/
def cc_oci_create_dir_step (runtimePath : PathState) : CreateOutcome :=
  if cc_oci_runtime_dir_setup runtimePath = false then
    if runtimePath = PathState.dir then CreateOutcome.errorAlreadyExists
    else CreateOutcome.errorRuntimeDir
  else CreateOutcome.proceed

/-! ### src/commands/kill.c and src/util.c: signal argument parsing -/

/-- The digit-prefix value used by `atoi(3)`. -/
def atoiDigits (cs : List Char) : Nat :=
  (cs.takeWhile Char.isDigit).foldl (fun acc c => 10 * acc + (c.toNat - 48)) 0

/-- `atoi(3)`: skip leading whitespace, an optional single sign, then the
longest decimal digit prefix; 0 when there are no digits. -/
def atoi (s : String) : Int :=
  let cs := s.data.dropWhile (fun c =>
    c == ' ' || c == '\t' || c == '\n' || c == '\r'
      || c == '\x0b' || c == '\x0c')
  match cs with
  | '-' :: rest => - Int.ofNat (atoiDigits rest)
  | '+' :: rest => Int.ofNat (atoiDigits rest)
  | _ => Int.ofNat (atoiDigits cs)

/-- The `signal_table` of src/util.c with Linux (x86-64) signal numbers;
`make_table_entry(SIG...)` pairs each number with its stringified name. -/
def signal_table : List (Nat × String) :=
  [(1, "SIGHUP"), (2, "SIGINT"), (3, "SIGQUIT"), (4, "SIGILL"),
   (5, "SIGTRAP"), (6, "SIGABRT"), (6, "SIGIOT"), (7, "SIGBUS"),
   (8, "SIGFPE"), (9, "SIGKILL"), (10, "SIGUSR1"), (11, "SIGSEGV"),
   (12, "SIGUSR2"), (13, "SIGPIPE"), (14, "SIGALRM"), (15, "SIGTERM"),
   (16, "SIGSTKFLT"), (17, "SIGCLD"), (17, "SIGCHLD"), (18, "SIGCONT"),
   (19, "SIGSTOP"), (20, "SIGTSTP"), (21, "SIGTTIN"), (22, "SIGTTOU"),
   (23, "SIGURG"), (24, "SIGXCPU"), (25, "SIGXFSZ"), (26, "SIGVTALRM"),
   (27, "SIGPROF"), (28, "SIGWINCH"), (29, "SIGPOLL"), (29, "SIGIO"),
   (30, "SIGPWR"), (31, "SIGSYS"), (31, "SIGUNUSED")]

/-- `cc_oci_get_signum` (src/util.c): prefix the name with "SIG" unless it
already starts with it (`g_strlcpy`/`g_strlcat` into a 32-byte buffer
truncate to 31 characters), then look the full name up in `signal_table`;
-1 when absent. -/
def cc_oci_get_signum (signame : String) : Int :=
  let full_name :=
    if signame.data.take 3 = ['S', 'I', 'G'] then signame
    else "SIG" ++ signame
  let full_name : String := ⟨full_name.data.take 31⟩
  match signal_table.find? (fun e => e.2 == full_name) with
  | some e => Int.ofNat e.1
  | none => -1

/-- The signal selection of `handler_kill` (src/commands/kill.c) for the
optional signal argument: no argument means SIGTERM; otherwise `atoi`
first, and when that yields a non-positive value, `cc_oci_get_signum`;
a negative result fails before any state is read or signal sent
(`none` = the handler returns false without calling `cc_oci_kill`). -/
def handler_kill_signum (arg : Option String) : Option Int :=
  match arg with
  | none => some (Int.ofNat SIGTERM)
  | some signame =>
    let signum := atoi signame
    let signum := if signum ≤ 0 then cc_oci_get_signum signame else signum
    if signum < 0 then none else some signum

end CCRuntime

namespace CCRuntime

/-- Or of a shifted value with a small value is addition. -/
theorem shiftLeft_lor_small {a b k : Nat} (hb : b < 2 ^ k) :
    a <<< k ||| b = a * 2 ^ k + b := by
  rw [Nat.shiftLeft_eq, Nat.mul_comm a (2 ^ k), ← Nat.mul_add_lt_is_or hb]

/-- A value below `2 ^ j` shifted left by `k` stays below `2 ^ (j + k)`. -/
theorem shiftLeft_lt_pow {x j : Nat} (k : Nat) (h : x < 2 ^ j) :
    x <<< k < 2 ^ (j + k) := by
  rw [Nat.shiftLeft_eq, Nat.pow_add]
  exact mul_lt_mul_of_pos_right h (Nat.two_pow_pos k)

theorem get_set_32 {v : Nat} (hv : v < 2 ^ 32) :
    get_big_endian_32 (set_big_endian_32 v) = v := by
  have h1 : ((v >>> 16) % 256) <<< 16 < 2 ^ 24 :=
    shiftLeft_lt_pow 16 (show (v >>> 16) % 256 < 2 ^ 8 from
      Nat.mod_lt _ (by norm_num))
  have h2 : ((v >>> 8) % 256) <<< 8 < 2 ^ 16 :=
    shiftLeft_lt_pow 8 (show (v >>> 8) % 256 < 2 ^ 8 from
      Nat.mod_lt _ (by norm_num))
  have h3 : v % 256 < 2 ^ 8 := Nat.mod_lt _ (by norm_num)
  unfold get_big_endian_32 set_big_endian_32
  simp only [List.getD_cons_zero, List.getD_cons_succ]
  rw [shiftLeft_lor_small h1]
  rw [show (v >>> 24) % 256 * 2 ^ 24 + ((v >>> 16) % 256) <<< 16
        = ((v >>> 24) % 256 * 2 ^ 8 + (v >>> 16) % 256) <<< 16 by
      rw [Nat.shiftLeft_eq, Nat.shiftLeft_eq]; ring]
  rw [shiftLeft_lor_small h2]
  rw [show ((v >>> 24) % 256 * 2 ^ 8 + (v >>> 16) % 256) * 2 ^ 16
        + ((v >>> 8) % 256) <<< 8
        = (((v >>> 24) % 256 * 2 ^ 8 + (v >>> 16) % 256) * 2 ^ 8
            + (v >>> 8) % 256) <<< 8 by
      rw [Nat.shiftLeft_eq, Nat.shiftLeft_eq]; ring]
  rw [shiftLeft_lor_small h3]
  rw [Nat.shiftRight_eq_div_pow, Nat.shiftRight_eq_div_pow,
    Nat.shiftRight_eq_div_pow]
  omega

theorem get_set_64 {v : Nat} (hv : v < 2 ^ 64) :
    get_big_endian_64 (set_big_endian_64 v) = v := by
  have hhi : (v >>> 32) % 2 ^ 32 < 2 ^ 32 := Nat.mod_lt _ (by norm_num)
  have hlo : v % 2 ^ 32 < 2 ^ 32 := Nat.mod_lt _ (by norm_num)
  have hdrop : (set_big_endian_32 ((v >>> 32) % 2 ^ 32)
      ++ set_big_endian_32 (v % 2 ^ 32)).drop 4
      = set_big_endian_32 (v % 2 ^ 32) := by
    simp [set_big_endian_32]
  have htake : get_big_endian_32 (set_big_endian_32 ((v >>> 32) % 2 ^ 32)
      ++ set_big_endian_32 (v % 2 ^ 32))
      = get_big_endian_32 (set_big_endian_32 ((v >>> 32) % 2 ^ 32)) := by
    simp [get_big_endian_32, set_big_endian_32]
  unfold get_big_endian_64 set_big_endian_64
  rw [hdrop, htake, get_set_32 hhi, get_set_32 hlo]
  rw [shiftLeft_lor_small hlo, Nat.shiftRight_eq_div_pow]
  omega

/-- C9: the big-endian codec round-trips: storing any 32-bit value with
`set_big_endian_32` and reading it back with `get_big_endian_32` yields the
value again, and likewise for 64-bit values with `set_big_endian_64` /
`get_big_endian_64`. -/
theorem c9_big_endian_roundtrip (v w : Nat) (hv : v < 2 ^ 32)
    (hw : w < 2 ^ 64) :
    get_big_endian_32 (set_big_endian_32 v) = v ∧
    get_big_endian_64 (set_big_endian_64 w) = w :=
  ⟨get_set_32 hv, get_set_64 hw⟩

/-- Witness for C9 at `v = 0xDEADBEEF`, `w = 0x0123456789ABCDEF`. -/
theorem c9_big_endian_roundtrip_witness :
    get_big_endian_32 (set_big_endian_32 3735928559) = 3735928559 ∧
    get_big_endian_64 (set_big_endian_64 81985529216486895)
      = 81985529216486895 :=
  c9_big_endian_roundtrip 3735928559 81985529216486895
    (by norm_num) (by norm_num)

/-- C1 (code bug): on the non-ASCII JSON payload `"é"` (UTF-8 bytes
`0xC3 0xA9`), `cc_proxy_msg_write` computes the length with
`g_utf8_strlen` (character count 1, not byte count 2), so it writes a
9-byte frame whose length field decodes to 1 and whose payload is
truncated to the single byte `0xC3` — not the 10-byte frame with length
field 2 and the full payload that the protocol requires. -/
theorem c1_utf8_length_bug :
    cc_proxy_msg_write_frame [195, 169]
      = [0, 0, 0, 1, 0, 0, 0, 0, 195] ∧
    (cc_proxy_msg_write_frame [195, 169]).length ≠ 8 + 2 ∧
    get_big_endian_32 (cc_proxy_msg_write_frame [195, 169]) ≠ 2 := by
  refine ⟨by decide, by decide, by decide⟩

/-! ### Helper lemmas about `handle_proxy_output` -/

theorem handle_io_seq_eq (s : ShimState) (f : Frame) :
    (handle_proxy_output s f).1.io_seq_no = s.io_seq_no := by
  unfold handle_proxy_output
  split_ifs <;> rfl

theorem handle_exit_requires {s : ShimState} {f : Frame} {c : Nat}
    (h : (handle_proxy_output s f).2 = ShimEffect.exitWith c) :
    s.exiting = true ∧ f.streamLen = 13 ∧
      (f.seq = s.io_seq_no ∨ f.seq = (s.io_seq_no + 1) % 2 ^ 64) ∧
      c = f.payload.headD 0 % 256 := by
  unfold handle_proxy_output at h
  split_ifs at h with h1 h2 h3 h4 h5
  all_goals simp_all

theorem handle_exiting_sources {s : ShimState} {f : Frame}
    (h : (handle_proxy_output s f).1.exiting = true) :
    s.exiting = true ∨
      (f.streamLen = 12 ∧
        (f.seq = s.io_seq_no ∨ f.seq = (s.io_seq_no + 1) % 2 ^ 64)) := by
  unfold handle_proxy_output at h
  split_ifs at h with h1 h2 h3 h4 h5
  all_goals simp_all

/-- A `uint64_t` successor reduced mod `2 ^ 64` never equals the original
value. -/
theorem succ_mod_u64_ne (n : Nat) : (n + 1) % 2 ^ 64 ≠ n := by omega

/-! ### C2: routing of inbound I/O frames by stream sequence -/

/-- Claim C2 as stated: for every well-formed frame (restricted to nonempty
payloads, where "the payload is written" is unambiguous), the payload is
written to stdout iff the sequence equals the shim's stdio stream number,
to stderr iff it equals the stdio stream number plus one, and any other
sequence is discarded with nothing written. -/
def c2ClaimStatement : Prop :=
  ∀ (s : ShimState) (f : Frame), f.wf → f.payload ≠ [] →
    (((handle_proxy_output s f).2 = ShimEffect.writeStdout f.payload) ↔
        f.seq = s.io_seq_no) ∧
    (((handle_proxy_output s f).2 = ShimEffect.writeStderr f.payload) ↔
        f.seq = (s.io_seq_no + 1) % 2 ^ 64) ∧
    ((f.seq ≠ s.io_seq_no ∧ f.seq ≠ (s.io_seq_no + 1) % 2 ^ 64) →
      (handle_proxy_output s f).2 = ShimEffect.discard)

/-- C2 counterexample: in the exiting state (EOF already seen), a 13-byte
frame with `seq = io_seq_no = 4` and payload byte `7` is consumed as the
exit status (`exit(7)`), not written to stdout, refuting the claim as
stated. -/
theorem c2_counterexample : ¬ c2ClaimStatement := by
  intro h
  have h1 := (h ⟨4, true, ⟨false, none, 0⟩⟩ ⟨4, [7]⟩
    ⟨by norm_num, by norm_num [Frame.streamLen]⟩ (by simp)).1
  have h2 : (handle_proxy_output ⟨4, true, ⟨false, none, 0⟩⟩ ⟨4, [7]⟩).2
      = ShimEffect.exitWith 7 := by decide
  rw [h2] at h1
  simp at h1

/-- C2 corrected: the routing law holds for every frame processed while the
shim is not yet exiting (no EOF frame seen): the payload is written to
stdout iff `seq` equals the stdio stream number, to stderr iff it equals
the stdio stream number plus one, and any other sequence is discarded.
Once the EOF frame has been seen, a matching 13-byte frame is instead
consumed as the exit status (see the counterexample). -/
theorem c2_routing_before_eof (s : ShimState) (f : Frame) (hwf : f.wf)
    (hex : s.exiting = false) (hp : f.payload ≠ []) :
    (((handle_proxy_output s f).2 = ShimEffect.writeStdout f.payload) ↔
        f.seq = s.io_seq_no) ∧
    (((handle_proxy_output s f).2 = ShimEffect.writeStderr f.payload) ↔
        f.seq = (s.io_seq_no + 1) % 2 ^ 64) ∧
    ((f.seq ≠ s.io_seq_no ∧ f.seq ≠ (s.io_seq_no + 1) % 2 ^ 64) →
      (handle_proxy_output s f).2 = ShimEffect.discard) := by
  obtain ⟨hseq, hlen⟩ := hwf
  have hne : (s.io_seq_no + 1) % 2 ^ 64 ≠ s.io_seq_no :=
    succ_mod_u64_ne s.io_seq_no
  have hlen12 : f.streamLen ≠ 12 := by
    have : f.payload.length ≠ 0 := by
      intro h0
      exact hp (List.eq_nil_of_length_eq_zero h0)
    unfold Frame.streamLen
    omega
  unfold handle_proxy_output
  rw [if_neg (by omega)]
  by_cases hio : f.seq = s.io_seq_no
  · rw [if_pos (Or.inl hio)]
    rw [if_neg (by simp [hlen12]), if_neg (by simp [hex]), if_pos hio]
    refine ⟨by simp [hio], ?_, ?_⟩
    · simp only [reduceCtorEq, false_iff]
      rw [hio]
      exact fun hc => hne hc.symm
    · intro hc
      exact absurd hio hc.1
  · by_cases herr : f.seq = (s.io_seq_no + 1) % 2 ^ 64
    · rw [if_pos (Or.inr herr)]
      rw [if_neg (by simp [hlen12]), if_neg (by simp [hex]), if_neg hio]
      exact ⟨by simp [hio], by simp [herr], fun hc => absurd herr hc.2⟩
    · rw [if_neg (by tauto)]
      refine ⟨by simp [hio], ?_, fun _ => rfl⟩
      simp only [reduceCtorEq, false_iff]
      exact herr

/-- Witness for the corrected C2 at a concrete state and frame. -/
theorem c2_routing_before_eof_witness :
    ((handle_proxy_output ⟨4, false, ⟨false, none, 0⟩⟩ ⟨4, [65, 66]⟩).2
        = ShimEffect.writeStdout [65, 66]) ∧
    ((handle_proxy_output ⟨4, false, ⟨false, none, 0⟩⟩ ⟨5, [65, 66]⟩).2
        = ShimEffect.writeStderr [65, 66]) := by
  constructor
  · exact (c2_routing_before_eof ⟨4, false, ⟨false, none, 0⟩⟩ ⟨4, [65, 66]⟩
      ⟨by norm_num, by norm_num [Frame.streamLen]⟩ rfl (by simp)).1.mpr rfl
  · exact (c2_routing_before_eof ⟨4, false, ⟨false, none, 0⟩⟩ ⟨5, [65, 66]⟩
      ⟨by norm_num, by norm_num [Frame.streamLen]⟩ rfl (by simp)).2.1.mpr
      (by norm_num)

/-! ### C3: EOF frame followed by exit-status frame -/

/-- C3: when the shim (not yet exiting) reads a 12-byte EOF frame followed
by a 13-byte frame, both with a sequence matching its streams, it exits
with status equal to the payload byte of the second frame, and the
terminal is restored to the termios settings saved at startup. -/
theorem c3_eof_then_exit_status (s : ShimState) (f1 f2 : Frame) (t0 b : Nat)
    (hex : s.exiting = false) (htty : s.term.isatty = true)
    (hsaved : s.term.saved = some t0)
    (h1p : f1.payload = []) (h2p : f2.payload = [b]) (hb : b < 256)
    (h1s : f1.seq = s.io_seq_no ∨ f1.seq = (s.io_seq_no + 1) % 2 ^ 64)
    (h2s : f2.seq = s.io_seq_no ∨ f2.seq = (s.io_seq_no + 1) % 2 ^ 64) :
    (shimRun s [f1, f2]).2 = some (1, b) ∧
    (shimRun s [f1, f2]).1.term.current = t0 := by
  have hL1 : f1.streamLen = 12 := by simp [Frame.streamLen, h1p]
  have hL2 : f2.streamLen = 13 := by simp [Frame.streamLen, h2p]
  have e1 : handle_proxy_output s f1
      = ({ s with exiting := true }, ShimEffect.markExiting) := by
    unfold handle_proxy_output
    rw [if_neg (by omega), if_pos h1s, if_pos ⟨hex, hL1⟩]
  have e2 : handle_proxy_output { s with exiting := true } f2
      = ({ s with exiting := true, term := restore_terminal s.term },
          ShimEffect.exitWith b) := by
    unfold handle_proxy_output
    rw [if_neg (by omega)]
    rw [if_pos (show f2.seq = s.io_seq_no
        ∨ f2.seq = (s.io_seq_no + 1) % 2 ^ 64 from h2s)]
    rw [if_neg (by simp), if_pos ⟨rfl, hL2⟩]
    rw [h2p]
    simp [Nat.mod_eq_of_lt hb]
  have hrt : restore_terminal s.term = ⟨true, none, t0⟩ := by
    unfold restore_terminal
    rw [htty, hsaved]
    simp
  simp [shimRun, e1, e2, ShimEffect.exitCode?, hrt]

/-- Witness for C3: stream number 4, EOF frame then status byte 7
(spec scenario: exits 7, terminal restored to the saved settings 99). -/
theorem c3_eof_then_exit_status_witness :
    (shimRun ⟨4, false, ⟨true, some 99, 0⟩⟩ [⟨4, []⟩, ⟨4, [7]⟩]).2
        = some (1, 7) ∧
    (shimRun ⟨4, false, ⟨true, some 99, 0⟩⟩
        [⟨4, []⟩, ⟨4, [7]⟩]).1.term.current = 99 :=
  c3_eof_then_exit_status ⟨4, false, ⟨true, some 99, 0⟩⟩ ⟨4, []⟩ ⟨4, [7]⟩
    99 7 rfl rfl rfl rfl rfl (by norm_num) (Or.inl rfl) (Or.inl rfl)

/-! ### C8: a 13-byte frame is an exit status only after an EOF frame -/

/-- Characterization of an exiting run of the shim's frame loop: if the run
exits at frame `i` with code `c`, then frame `i` is a matching 13-byte
frame whose payload byte is the code, and either the shim was already
exiting at the start or some earlier frame was a matching 12-byte EOF
frame. -/
theorem shimRun_exit_characterization (fs : List Frame) :
    ∀ (s : ShimState) (i c : Nat),
      (shimRun s fs).2 = some (i, c) →
      (s.exiting = true ∨
        ∃ j fe, j < i ∧ fs.get? j = some fe ∧ fe.streamLen = 12 ∧
          (fe.seq = s.io_seq_no ∨ fe.seq = (s.io_seq_no + 1) % 2 ^ 64)) ∧
      ∃ fx, fs.get? i = some fx ∧ fx.streamLen = 13 ∧
        (fx.seq = s.io_seq_no ∨ fx.seq = (s.io_seq_no + 1) % 2 ^ 64) ∧
        c = fx.payload.headD 0 % 256 := by
  induction fs with
  | nil => intro s i c h; simp [shimRun] at h
  | cons f fs ih =>
    intro s i c h
    have hio : (handle_proxy_output s f).1.io_seq_no = s.io_seq_no :=
      handle_io_seq_eq s f
    rcases hco : ((handle_proxy_output s f).2).exitCode? with _ | c0
    · -- the head frame does not exit: the run continues on the tail
      simp only [shimRun, hco] at h
      rw [Option.map_eq_some'] at h
      obtain ⟨⟨i', c'⟩, hr, hpc⟩ := h
      cases hpc
      obtain ⟨hA, hB⟩ := ih (handle_proxy_output s f).1 i' c' hr
      constructor
      · rcases hA with hA | ⟨j, fe, hj, hget, h12, hsm⟩
        · rcases handle_exiting_sources hA with hE | ⟨h12, hsm⟩
          · exact Or.inl hE
          · exact Or.inr ⟨0, f, by omega, rfl, h12, hsm⟩
        · rw [hio] at hsm
          exact Or.inr ⟨j + 1, fe, by omega, by simpa using hget, h12, hsm⟩
      · obtain ⟨fx, hget, h13, hsm, hcx⟩ := hB
        rw [hio] at hsm
        exact ⟨fx, by simpa using hget, h13, hsm, hcx⟩
    · -- the head frame exits
      have he : (handle_proxy_output s f).2 = ShimEffect.exitWith c0 := by
        cases hE : (handle_proxy_output s f).2 <;> rw [hE] at hco <;>
          simp only [ShimEffect.exitCode?, Option.some.injEq,
            reduceCtorEq] at hco
        rw [hco]
      have hreq := handle_exit_requires he
      simp only [shimRun, hco] at h
      simp only [Prod.mk.injEq, Option.some.injEq] at h
      obtain ⟨hi, hc⟩ := h
      subst hi hc
      exact ⟨Or.inl hreq.1, f, rfl, hreq.2.1, hreq.2.2.1, hreq.2.2.2⟩

/-- C8: the shim never exits with an agent-supplied status before having
received an EOF frame: in any run of frames starting in the non-exiting
state that exits at frame `i`, some earlier frame `j < i` is a matching
12-byte EOF frame; and a 13-byte frame arriving while the shim is not
exiting has its payload byte written to stdout (matching stdio sequence)
or stderr (stdio sequence plus one) as ordinary data instead. -/
theorem c8_no_exit_status_before_eof :
    (∀ (s : ShimState) (fs : List Frame) (i c : Nat), s.exiting = false →
        (shimRun s fs).2 = some (i, c) →
        ∃ j fe, j < i ∧ fs.get? j = some fe ∧ fe.streamLen = 12 ∧
          (fe.seq = s.io_seq_no ∨ fe.seq = (s.io_seq_no + 1) % 2 ^ 64)) ∧
    (∀ (s : ShimState) (f : Frame), s.exiting = false →
        f.streamLen = 13 →
        (f.seq = s.io_seq_no →
          (handle_proxy_output s f).2 = ShimEffect.writeStdout f.payload) ∧
        (f.seq = (s.io_seq_no + 1) % 2 ^ 64 →
          (handle_proxy_output s f).2 = ShimEffect.writeStderr f.payload)) := by
  constructor
  · intro s fs i c hex h
    rcases (shimRun_exit_characterization fs s i c h).1 with hA | hB
    · rw [hex] at hA
      exact absurd hA (by simp)
    · exact hB
  · intro s f hex h13
    have hbound : ¬ 10240 < f.streamLen := by omega
    constructor
    · intro hio
      unfold handle_proxy_output
      rw [if_neg hbound, if_pos (Or.inl hio), if_neg (by simp [h13]),
        if_neg (by simp [hex]), if_pos hio]
    · intro herr
      have hne : f.seq ≠ s.io_seq_no := by
        rw [herr]
        exact succ_mod_u64_ne s.io_seq_no
      unfold handle_proxy_output
      rw [if_neg hbound, if_pos (Or.inr herr), if_neg (by simp [h13]),
        if_neg (by simp [hex]), if_neg hne]

/-- Witness for C8: the run `[EOF frame, status frame 7]` on stream 4
exits at index 1 with the EOF frame at index 0, and a lone 13-byte frame
in the initial state is written to stdout as data. -/
theorem c8_no_exit_status_before_eof_witness :
    (∃ j fe, j < 1 ∧ [Frame.mk 4 [], Frame.mk 4 [7]].get? j = some fe ∧
        fe.streamLen = 12 ∧ (fe.seq = (4 : Nat) ∨ fe.seq = (5 : Nat))) ∧
    (handle_proxy_output ⟨4, false, ⟨false, none, 0⟩⟩ ⟨4, [7]⟩).2
      = ShimEffect.writeStdout [7] := by
  constructor
  · have h := c8_no_exit_status_before_eof.1 ⟨4, false, ⟨false, none, 0⟩⟩
      [⟨4, []⟩, ⟨4, [7]⟩] 1 7 rfl (by decide)
    obtain ⟨j, fe, hj, hget, h12, hsm⟩ := h
    refine ⟨j, fe, hj, hget, h12, ?_⟩
    rcases hsm with hsm | hsm
    · exact Or.inl hsm
    · right
      rw [hsm]
      norm_num
  · exact (c8_no_exit_status_before_eof.2 ⟨4, false, ⟨false, none, 0⟩⟩
      ⟨4, [7]⟩ rfl (by norm_num [Frame.streamLen])).1 rfl

/-! ### C4: required keys of the state document -/

/-- C4 counterexample: the state document missing exactly the proxy
`consoleSocket` member is accepted by `cc_oci_state_file_read` — the
`proxy` entry of `state_handlers` demands only 2 subelements while 3 are
recognised — refuting the claim that it must be rejected. -/
theorem c4_counterexample :
    cc_oci_state_file_read_ok (mkStateDoc (some ReqKey.proxyConsoleSocket))
      = true := by decide

/-- C4 corrected: the complete document is accepted; removing any one of
the scalar keys (`ociVersion`, `id`, `pid`, `bundlePath`, `commsPath`,
`processPath`, `status`, `created`) or any of the six `vm` members makes
the read fail; but removing exactly one of the three proxy socket members
leaves the read succeeding, because the proxy handler requires only two
subelements. -/
theorem c4_missing_required_key (k : ReqKey) :
    cc_oci_state_file_read_ok (mkStateDoc none) = true ∧
    cc_oci_state_file_read_ok (mkStateDoc (some k))
      = ReqKey.isProxyMember k := by
  refine ⟨by decide, ?_⟩
  cases k <;> decide

/-! ### C5: kill(signum) on a non-sandbox container -/

/-- Claim C5 as stated: on a non-sandbox container whose in-memory and
stored status agree, kill first writes status stopping, on success the
final stored status is stopped, and on any failure along the way the
stored status is left unchanged (reverted to its previous value). -/
def c5ClaimStatement : Prop :=
  ∀ (env : KillEnv) (st : OciStatus) (pid signum : Nat),
    env.sandbox = false →
    (cc_oci_kill env st st pid signum).events.head?
        = some (KillEvent.writeState OciStatus.stopping env.write1Ok) ∧
    ((cc_oci_kill env st st pid signum).ok = true →
      (cc_oci_kill env st st pid signum).diskStatus = OciStatus.stopped) ∧
    ((cc_oci_kill env st st pid signum).ok = false →
      (cc_oci_kill env st st pid signum).diskStatus = st)

/-- C5 counterexample: `kill(SIGKILL)` on a running container where the
signal is delivered but the `hyper killcontainer` RPC fails returns
failure with the stored status left at `stopping`, not reverted to
`running`: `cc_oci_kill` returns `false` from the hyper branch without
restoring `last_status`. -/
theorem c5_counterexample : ¬ c5ClaimStatement := by
  intro h
  have h2 := (h ⟨false, true, true, false, true, true⟩ OciStatus.running
    1000 9 rfl).2.2 (by decide)
  exact absurd h2 (by decide)

/-- C5 corrected: on a non-sandbox container the status is first written
as stopping; the signal is sent to the shim pid whenever that write
succeeded; the `hyper killcontainer` RPC is issued exactly when the signal
was delivered and the signal is SIGKILL or SIGSTOP; on success the final
written status is stopped; a `kill(2)` failure reverts the stored status
to its previous value; but a failure of the hyper RPC or of the final
state write leaves the stored status at stopping (not reverted). -/
theorem c5_kill_lifecycle (env : KillEnv) (st : OciStatus)
    (pid signum : Nat) (hsb : env.sandbox = false) :
    (cc_oci_kill env st st pid signum).events.head?
        = some (KillEvent.writeState OciStatus.stopping env.write1Ok) ∧
    ((cc_oci_kill env st st pid signum).ok = true →
      (cc_oci_kill env st st pid signum).diskStatus = OciStatus.stopped ∧
      (cc_oci_kill env st st pid signum).memStatus = OciStatus.stopped) ∧
    (env.write1Ok = true →
      KillEvent.sendSignal pid signum env.killOk
        ∈ (cc_oci_kill env st st pid signum).events) ∧
    ((∃ b, KillEvent.hyperKillContainer b
        ∈ (cc_oci_kill env st st pid signum).events) ↔
      (env.write1Ok = true ∧ env.killOk = true ∧
        (signum = SIGKILL ∨ signum = SIGSTOP))) ∧
    (env.write1Ok = true → env.killOk = false → env.writeRevertOk = true →
      (cc_oci_kill env st st pid signum).ok = false ∧
      (cc_oci_kill env st st pid signum).diskStatus = st) ∧
    (env.write1Ok = true → env.killOk = true →
      (signum = SIGKILL ∨ signum = SIGSTOP) → env.hyperOk = false →
      (cc_oci_kill env st st pid signum).ok = false ∧
      (cc_oci_kill env st st pid signum).diskStatus = OciStatus.stopping) ∧
    (env.write1Ok = true → env.killOk = true →
      ((signum = SIGKILL ∨ signum = SIGSTOP) → env.hyperOk = true) →
      env.write2Ok = false →
      (cc_oci_kill env st st pid signum).ok = false ∧
      (cc_oci_kill env st st pid signum).diskStatus = OciStatus.stopping)
    := by
  obtain ⟨sb, w1, wr, hy, k, w2⟩ := env
  simp only at hsb
  subst hsb
  by_cases hsig : signum = SIGKILL ∨ signum = SIGSTOP <;>
    cases w1 <;> cases k <;> cases hy <;> cases w2 <;>
      simp_all [cc_oci_kill]

/-- Witness for the corrected C5: SIGKILL on a running container with a
failing hyper RPC — the first write is stopping, the call fails, and the
stored status stays stopping — and SIGKILL with a failing final state
write, which also fails with the stored status left at stopping. -/
theorem c5_kill_lifecycle_witness :
    (cc_oci_kill ⟨false, true, true, false, true, true⟩ OciStatus.running
        OciStatus.running 1000 9).events.head?
      = some (KillEvent.writeState OciStatus.stopping true) ∧
    (cc_oci_kill ⟨false, true, true, false, true, true⟩ OciStatus.running
        OciStatus.running 1000 9).ok = false ∧
    (cc_oci_kill ⟨false, true, true, false, true, true⟩ OciStatus.running
        OciStatus.running 1000 9).diskStatus = OciStatus.stopping ∧
    (cc_oci_kill ⟨false, true, true, true, true, false⟩ OciStatus.running
        OciStatus.running 1000 9).ok = false ∧
    (cc_oci_kill ⟨false, true, true, true, true, false⟩ OciStatus.running
        OciStatus.running 1000 9).diskStatus = OciStatus.stopping := by
  have h := c5_kill_lifecycle ⟨false, true, true, false, true, true⟩
    OciStatus.running 1000 9 rfl
  have h2 := c5_kill_lifecycle ⟨false, true, true, true, true, false⟩
    OciStatus.running 1000 9 rfl
  exact ⟨h.1, (h.2.2.2.2.2.1 rfl rfl (Or.inl rfl) rfl).1,
    (h.2.2.2.2.2.1 rfl rfl (Or.inl rfl) rfl).2,
    (h2.2.2.2.2.2.2 rfl rfl (fun _ => rfl) rfl).1,
    (h2.2.2.2.2.2.2 rfl rfl (fun _ => rfl) rfl).2⟩

/-! ### C6: dead pid forces reported status stopped -/

/-- Claim C6 as stated: whenever the state document's `pid` field (the
shim's pid) is not alive, list reports status stopped regardless of the
stored status. -/
def c6ClaimStatement : Prop :=
  ∀ (alive : Nat → Bool) (state : OciStateView),
    alive state.pid = false →
    cc_oci_list_vm_status alive state = OciStatus.stopped

/-- C6 counterexample: a state whose shim pid 7 is dead but whose
hypervisor pid 5 is alive and whose stored status is running is listed as
running: `cc_oci_list_vm` consults `cc_oci_vm_running`, which checks
`state->vm->pid` (the hypervisor), not the top-level `pid`. -/
theorem c6_counterexample : ¬ c6ClaimStatement := by
  intro h
  have h2 := h (fun p => p == 5) ⟨7, some 5, OciStatus.running⟩ (by decide)
  exact absurd h2 (by decide)

/-- C6 corrected: list reports stopped exactly when the **hypervisor** pid
recorded in the state's vm section is absent, zero, or not alive,
regardless of the stored status, and reports the stored status otherwise;
the top-level `pid` field (the shim's pid) has no influence on the
reported status. -/
theorem c6_list_status (alive : Nat → Bool) (state : OciStateView) :
    (cc_oci_vm_running alive state = false →
      cc_oci_list_vm_status alive state = OciStatus.stopped) ∧
    (cc_oci_vm_running alive state = true →
      cc_oci_list_vm_status alive state = state.status) ∧
    (∀ pid2 : Nat,
      cc_oci_list_vm_status alive ⟨pid2, state.vm, state.status⟩
        = cc_oci_list_vm_status alive state) := by
  refine ⟨fun hdead => ?_, fun hlive => ?_, fun pid2 => ?_⟩
  · simp [cc_oci_list_vm_status, hdead]
  · simp [cc_oci_list_vm_status, hlive]
  · simp [cc_oci_list_vm_status, cc_oci_vm_running]

/-- Witness for the corrected C6: dead hypervisor pid 4 is listed stopped;
alive hypervisor pid 5 is listed with the stored status running. -/
theorem c6_list_status_witness :
    cc_oci_list_vm_status (fun p => p == 5) ⟨7, some 4, OciStatus.running⟩
        = OciStatus.stopped ∧
    cc_oci_list_vm_status (fun p => p == 5) ⟨7, some 5, OciStatus.running⟩
        = OciStatus.running := by
  constructor
  · exact (c6_list_status (fun p => p == 5)
      ⟨7, some 4, OciStatus.running⟩).1 (by decide)
  · exact (c6_list_status (fun p => p == 5)
      ⟨7, some 5, OciStatus.running⟩).2.1 (by decide)

/-! ### C7: create when the runtime directory already exists -/

/-- C7 (code bug): when `<root>/<container-id>` already exists as a
directory, `g_mkdir_with_parents` succeeds, so `cc_oci_runtime_dir_setup`
returns true and `cc_oci_create` proceeds to namespace setup, mounts and
VM launch instead of failing; the "container already exists" branch is
not reached on this input (it would require the setup call to fail while
the path is a directory, which `g_mkdir_with_parents` never produces). -/
theorem c7_existing_dir_not_rejected :
    cc_oci_runtime_dir_setup PathState.dir = true ∧
    cc_oci_create_dir_step PathState.dir = CreateOutcome.proceed ∧
    cc_oci_create_dir_step PathState.dir ≠ CreateOutcome.errorAlreadyExists
    := by
  exact ⟨rfl, rfl, by decide⟩

/-! ### C10: signal argument of the kill subcommand -/

/-- A positive decimal numeral: only digits, with a positive value
(formalising the claim's words "a positive decimal number"). -/
def specPosDecimalNumber (s : String) : Bool :=
  s.data ≠ [] && s.data.all Char.isDigit && atoiDigits s.data ≠ 0

/-- A symbolic signal name: with or without the SIG prefix, naming an
entry of the signal table (formalising the claim's words "a symbolic
name"). -/
def specSymbolicSignalName (s : String) : Bool :=
  0 ≤ cc_oci_get_signum s && cc_oci_get_signum s ≠ -1

/-- Claim C10 as stated: no argument means SIGTERM; an argument that is a
positive decimal number or a symbolic name is accepted; an argument that
is neither makes the command fail without delivering any signal. -/
def c10ClaimStatement : Prop :=
  handler_kill_signum none = some (Int.ofNat SIGTERM) ∧
  ∀ s : String, specPosDecimalNumber s = false →
    specSymbolicSignalName s = false →
    handler_kill_signum (some s) = none

/-- C10 counterexample: the argument "9x" is neither a positive decimal
numeral nor a symbolic signal name, yet the handler accepts it and
delivers signal 9, because `atoi` parses the digit prefix. -/
theorem c10_counterexample : ¬ c10ClaimStatement := by
  intro h
  have h2 := h.2 "9x" (by decide) (by decide)
  exact absurd h2 (by decide)

/-- C10 corrected: with no signal argument the signal is SIGTERM (15).
With an argument, `atoi`'s prefix parse decides first: any argument whose
longest decimal prefix (after optional whitespace and sign) has a positive
value is accepted with that value — including arguments such as "9x" that
are not numerals; otherwise the argument is looked up as a symbolic name
(with or without the SIG prefix); when that also fails the command fails
before reading state or delivering any signal. -/
theorem c10_kill_signal_parsing :
    handler_kill_signum none = some (Int.ofNat SIGTERM) ∧
    (∀ s : String, 0 < atoi s →
      handler_kill_signum (some s) = some (atoi s)) ∧
    (∀ s : String, atoi s ≤ 0 →
      handler_kill_signum (some s) =
        if cc_oci_get_signum s < 0 then none
        else some (cc_oci_get_signum s)) := by
  refine ⟨rfl, fun s hpos => ?_, fun s hnonpos => ?_⟩
  · simp only [handler_kill_signum]
    rw [if_neg (show ¬ atoi s ≤ 0 by omega),
      if_neg (show ¬ atoi s < 0 by omega)]
  · simp only [handler_kill_signum]
    rw [if_pos hnonpos]

/-- Witness for the corrected C10: "9x" is accepted as signal 9, "KILL"
resolves symbolically to 9, and "bogus" fails. -/
theorem c10_kill_signal_parsing_witness :
    handler_kill_signum (some "9x") = some 9 ∧
    handler_kill_signum (some "KILL") = some 9 ∧
    handler_kill_signum (some "bogus") = none := by
  refine ⟨?_, ?_, ?_⟩
  · have h := c10_kill_signal_parsing.2.1 "9x" (by decide)
    rw [h]
    decide
  · have h := c10_kill_signal_parsing.2.2 "KILL" (by decide)
    rw [h]
    decide
  · have h := c10_kill_signal_parsing.2.2 "bogus" (by decide)
    rw [h]
    decide

end CCRuntime
